import Mathlib

/-!
Verification development for the CHOMP planner core
(`chomp_trajectory.cpp` and `chomp_planner.cpp`).

Modelling conventions:
* C++ `double` values are modelled as exact numbers: `ℚ` where results are
  compared or floored (parameter escalation, point-count sizing), and `ℝ`
  where calculus is involved (interpolation fillers, angular distance,
  velocities).  Index arithmetic on `int` / `size_t` is modelled with `ℤ`
  and `ℕ`.
* An Eigen matrix of trajectory values is modelled as a total function
  `ℕ → ℕ → ℝ` (row = point, column = joint); only entries inside the
  declared bounds are ever meaningful.
* The while-loop in `ChompPlanner::solve` is modelled by a structurally
  recursive function with an explicit fuel argument; the fuel
  `max_recovery_attempts` is sufficient because the loop body increments
  `replan_count` on every iteration it continues and continues only while
  `replan_count < max_recovery_attempts`, so the truncation branch is
  unreachable from the top-level entry point.
-/

namespace Chomp

/-- Trajectory buffer, from `chomp_trajectory.h` / `chomp_trajectory.cpp`:
`num_points_`, `num_joints_`, `discretization_`, `start_index_`,
`end_index_` and the Eigen matrix `trajectory_` (row = point, column =
joint), modelled as a total function. -/
structure ChompTrajectory where
  num_points : ℕ
  num_joints : ℕ
  discretization : ℝ
  start_index : ℕ
  end_index : ℕ
  trajectory : ℕ → ℕ → ℝ

/-- Point-count rule of the duration-based constructor
(`chomp_trajectory.cpp` line 45):
`static_cast<size_t>(duration / discretization) + 1`.  For the positive
quotients of interest the C++ cast truncates toward zero, which is the
floor. -/
def numPointsFromDuration (duration discretization : ℚ) : ℕ :=
  (⌊duration / discretization⌋).toNat + 1

/-- Clamped source index of the padded-copy constructor
(`chomp_trajectory.cpp` lines 87–91):
`int source_traj_point = i - start_extra;` clamped into
`[0, source_num_points - 1]`. -/
def clampSourceIndex (source_num_points : ℕ) (start_extra : ℤ) (i : ℕ) : ℕ :=
  let s : ℤ := (i : ℤ) - start_extra
  let s2 : ℤ := if s < 0 then 0 else s
  let s3 : ℤ := if (source_num_points : ℤ) ≤ s2 then (source_num_points : ℤ) - 1 else s2
  s3.toNat

/-- Padded-copy constructor (`chomp_trajectory.cpp` lines 63–95).  Note the
source computes `start_extra = (diff_rule_length - 1) - start_index_` and
`end_extra = (diff_rule_length - 1) - ((num_points_ - 1) - end_index_)`
WITHOUT clamping them at zero; both are `int` and may be negative. -/
def createPadded (source : ChompTrajectory) (diff_rule_length : ℕ) : ChompTrajectory :=
  let start_extra : ℤ := ((diff_rule_length : ℤ) - 1) - (source.start_index : ℤ)
  let end_extra : ℤ := ((diff_rule_length : ℤ) - 1)
    - (((source.num_points : ℤ) - 1) - (source.end_index : ℤ))
  let np : ℤ := (source.num_points : ℤ) + start_extra + end_extra
  { num_points := np.toNat
    num_joints := source.num_joints
    discretization := source.discretization
    start_index := diff_rule_length - 1
    end_index := (np - 1 - ((diff_rule_length : ℤ) - 1)).toNat
    trajectory := fun i j => source.trajectory (clampSourceIndex source.num_points start_extra i) j }

/-- Quintic evaluated by `fillInMinJerk` (`chomp_trajectory.cpp` lines
158–187): coefficients `x0, 0, 0, (-20 x0 + 20 x1)/(2 td1³),
(30 x0 - 30 x1)/(2 td1⁴), (-12 x0 + 12 x1)/(2 td1⁵)` summed against the
powers of `t`. -/
noncomputable def minJerkPosition (x0 x1 td1 t : ℝ) : ℝ :=
  x0 + 0 * t + 0 * t^2 + ((-20*x0 + 20*x1)/(2*td1^3)) * t^3
    + ((30*x0 - 30*x1)/(2*td1^4)) * t^4 + ((-12*x0 + 12*x1)/(2*td1^5)) * t^5

/-- Formal first derivative of `minJerkPosition` in `t` (proved to be the
actual derivative below). -/
noncomputable def minJerkVelocity (x0 x1 td1 t : ℝ) : ℝ :=
  0 + 2*0*t + 3*((-20*x0 + 20*x1)/(2*td1^3)) * t^2
    + 4*((30*x0 - 30*x1)/(2*td1^4)) * t^3 + 5*((-12*x0 + 12*x1)/(2*td1^5)) * t^4

/-- Formal second derivative of `minJerkPosition` in `t` (proved to be the
derivative of `minJerkVelocity` below). -/
noncomputable def minJerkAcceleration (x0 x1 td1 t : ℝ) : ℝ :=
  2*0 + 2*(3*((-20*x0 + 20*x1)/(2*td1^3)))*t
    + 3*(4*((30*x0 - 30*x1)/(2*td1^4)))*t^2 + 4*(5*((-12*x0 + 12*x1)/(2*td1^5)))*t^3

/-- `ChompTrajectory::fillInMinJerk` (`chomp_trajectory.cpp` lines
145–189): fills the free interior `(start_index_-1, end_index_+1)`
exclusive with the quintic evaluated at `t_i = (i - start_index) ·
discretization_`, `td1 = (end_index - start_index) · discretization_`. -/
noncomputable def fillInMinJerk (traj : ChompTrajectory) : ChompTrajectory :=
  let s := traj.start_index - 1
  let e := traj.end_index + 1
  let td1 := ((e : ℝ) - (s : ℝ)) * traj.discretization
  { traj with trajectory := fun i j =>
      if s < i ∧ i < e then
        (minJerkPosition (traj.trajectory s j) (traj.trajectory e j) td1
          (((i : ℝ) - (s : ℝ)) * traj.discretization))
      else traj.trajectory i j }

/-- `ChompTrajectory::fillInLinearInterpolation` (`chomp_trajectory.cpp`
lines 109–121): per joint `jt`, `theta = (T(e,jt) - T(s,jt))/(e - 1)` and
interior point `pt` gets `T(s,jt) + pt · theta`. -/
noncomputable def fillInLinearInterpolation (traj : ChompTrajectory) : ChompTrajectory :=
  let s := traj.start_index - 1
  let e := traj.end_index + 1
  { traj with trajectory := fun pt jt =>
      if s < pt ∧ pt < e then
        (traj.trajectory s jt
          + (pt : ℝ) * ((traj.trajectory e jt - traj.trajectory s jt) / ((e : ℝ) - 1)))
      else traj.trajectory pt jt }

/-- `ChompTrajectory::fillInCubicInterpolation` (`chomp_trajectory.cpp`
lines 123–143): fixed micro-timestep `dt = 0.001`,
`total_time = (e - 1) · dt`, cubic coefficients `c0 = T(s,jt)`,
`c2 = 3/total_time² · Δ`, `c3 = -2/total_time³ · Δ`, evaluated at
`t = pt · dt`. -/
noncomputable def fillInCubicInterpolation (traj : ChompTrajectory) : ChompTrajectory :=
  let s := traj.start_index - 1
  let e := traj.end_index + 1
  let dt : ℝ := 0.001
  let total_time := ((e : ℝ) - 1) * dt
  { traj with trajectory := fun pt jt =>
      if s < pt ∧ pt < e then
        (traj.trajectory s jt
          + (3 / total_time^2) * (traj.trajectory e jt - traj.trajectory s jt) * ((pt : ℝ) * dt)^2
          + (-2 / total_time^3) * (traj.trajectory e jt - traj.trajectory s jt) * ((pt : ℝ) * dt)^3)
      else traj.trajectory pt jt }

/-- Modelled from the spec: `ChompTrajectory::setTrajectory` is declared in
`chomp_trajectory.h`, which is not under `src/`; per the spec's
"pre-baked" fill mode it replaces the buffer contents with the given
matrix. -/
def setTrajectory (traj : ChompTrajectory) (m : ℕ → ℕ → ℝ) : ChompTrajectory :=
  { traj with trajectory := m }

/-- Source-index sequence produced by `ChompTrajectory::fillInFromTrajectory`
(`chomp_trajectory.cpp` lines 203–239): entry `p` of the list is the index
of the external waypoint copied into target row `p`.  Repetition branch
when `num_input_points ≤ num_chomp_points` (each input index `i` emitted
`num_chomp/num_input` times plus once more while `i < num_chomp %
num_input`), decimation branch otherwise
(`sampled_point = floor(i · num_input / num_chomp)`, the double division
modelled exactly). -/
def fillSourceIndexList (num_input_points num_chomp_points : ℕ) : List ℕ :=
  if num_input_points ≤ num_chomp_points then
    (List.range num_input_points).flatMap fun i =>
      List.replicate (num_chomp_points / num_input_points) i
        ++ (if i < num_chomp_points % num_input_points then [i] else [])
  else
    (List.range num_chomp_points).map fun i =>
      i * num_input_points / num_chomp_points

/-- `ChompTrajectory::fillInFromTrajectory` (`chomp_trajectory.cpp` lines
191–241): returns `false` (here `none`) when the input trajectory has
fewer than 2 waypoints, otherwise fills the buffer according to
`fillSourceIndexList`. -/
def fillInFromTrajectory (num_input_points num_chomp_points : ℕ) : Option (List ℕ) :=
  if num_input_points < 2 then none
  else some (fillSourceIndexList num_input_points num_chomp_points)

/-- The four escalatable fields of `ChompParameters`
(`chomp_planner.cpp` lines 192–195 capture them as `org_*`). -/
structure EscalatableParams where
  learning_rate : ℚ
  ridge_factor : ℚ
  planning_time_limit : ℚ
  max_iterations : ℤ
deriving DecidableEq

/-- Modelled from the spec: `ChompParameters::setRecoveryParams` is defined
in `chomp_parameters.cpp`, which is not under `src/`; per the spec it sets
the four escalatable fields to the given values. -/
def setRecoveryParams (p : EscalatableParams) (lr rf ptl : ℚ) (mi : ℤ) : EscalatableParams :=
  { p with
    learning_rate := lr
    ridge_factor := rf
    planning_time_limit := ptl
    max_iterations := mi }

/-- One escalation step (`chomp_planner.cpp` lines 209–210):
`setRecoveryParams(lr + 0.02, rf + 0.002, ptl + 5, mi + 50)`. -/
def escalateParams (p : EscalatableParams) : EscalatableParams :=
  setRecoveryParams p (p.learning_rate + 0.02) (p.ridge_factor + 0.002)
    (p.planning_time_limit + 5) (p.max_iterations + 50)

/-- `ChompParameters` fields read by `ChompPlanner::solve`. -/
structure ChompParameters where
  learning_rate : ℚ
  ridge_factor : ℚ
  planning_time_limit : ℚ
  max_iterations : ℤ
  enable_failure_recovery : Bool
  max_recovery_attempts : ℕ
  trajectory_initialization_method : String
deriving DecidableEq

/-- The four escalatable fields of a full parameter set; this is both the
`org_*` capture (lines 192–195) and the initial state of the local copy
`params_nonconst` (line 200). -/
def escalatableOf (p : ChompParameters) : EscalatableParams :=
  { learning_rate := p.learning_rate, ridge_factor := p.ridge_factor,
    planning_time_limit := p.planning_time_limit, max_iterations := p.max_iterations }

/-- Exit state of the replanning while-loop (`chomp_planner.cpp` lines
203–250): either the optimizer failed to initialize at some attempt
(immediate `return false`, carrying the current escalated copy), or the
loop broke out after attempt `replan_count` with the last optimization
result. -/
inductive LoopOutcome where
  | initFailed (replan_count : ℕ) (params_nonconst : EscalatableParams)
  | finished (replan_count : ℕ) (params_nonconst : EscalatableParams)
      (optimization_result : Bool)
deriving DecidableEq

/-- Fuel-indexed model of the while-loop body (`chomp_planner.cpp` lines
203–250).  `optimizer_init_ok k` / `optimize_ok k` are the oracle results
of `optimizer->isInitialized()` / `optimizer->optimize()` on the attempt
with `replan_count = k`.  The loop continues exactly when
`enable_failure_recovery ∧ ¬optimization_result ∧ replan_count <
max_recovery_attempts`, after escalating the parameters whenever
`replan_flag` was set by the previous iteration.  At every state reachable
from `replanLoop` below, `max_recovery_attempts ≤ fuel + replan_count`
holds, so the continue-condition is false whenever the fuel runs out and
the `fuel = 0` equation coincides with the loop body. -/
def replanLoopFuel (enable_failure_recovery : Bool) (max_recovery_attempts : ℕ)
    (optimizer_init_ok optimize_ok : ℕ → Bool) :
    ℕ → ℕ → EscalatableParams → Bool → LoopOutcome
  | 0, replan_count, p, replan_flag =>
    let p1 := if replan_flag then escalateParams p else p
    if optimizer_init_ok replan_count = false then .initFailed replan_count p1
    else .finished replan_count p1 (optimize_ok replan_count)
  | fuel + 1, replan_count, p, replan_flag =>
    let p1 := if replan_flag then escalateParams p else p
    if optimizer_init_ok replan_count = false then .initFailed replan_count p1
    else
      let optimization_result := optimize_ok replan_count
      if enable_failure_recovery = true ∧ optimization_result = false ∧
          replan_count < max_recovery_attempts then
        replanLoopFuel enable_failure_recovery max_recovery_attempts
          optimizer_init_ok optimize_ok fuel (replan_count + 1) p1 true
      else .finished replan_count p1 optimization_result

/-- The replanning loop as entered by `solve`: `replan_count = 0`,
`replan_flag = false`, parameters = the fresh copy of the caller's. -/
def replanLoop (enable_failure_recovery : Bool) (max_recovery_attempts : ℕ)
    (optimizer_init_ok optimize_ok : ℕ → Bool) (p : EscalatableParams) : LoopOutcome :=
  replanLoopFuel enable_failure_recovery max_recovery_attempts
    optimizer_init_ok optimize_ok max_recovery_attempts 0 p false

/-- Trajectory-initialization choice (`chomp_planner.cpp` lines 122–178). -/
inductive FillMethod where
  | quinticSpline
  | linear
  | cubic
  | equal
deriving DecidableEq

/-- Dispatch on `params.trajectory_initialization_method_`
(`chomp_planner.cpp` lines 122–178); the final `else` branch (line 178)
only logs an error and leaves the buffer untouched. -/
def selectFillMethod (method : String) : Option FillMethod :=
  if method = "quintic-spline" then some .quinticSpline
  else if method = "linear" then some .linear
  else if method = "cubic" then some .cubic
  else if method = "equal" then some .equal
  else none

/-- Effect of the selected initialization on the trajectory buffer
(`csv` stands for the matrix read by `csvRead` in the `equal` branch). -/
noncomputable def applyFillMethod : Option FillMethod → (ℕ → ℕ → ℝ) → ChompTrajectory → ChompTrajectory
  | some .quinticSpline, _, traj => fillInMinJerk traj
  | some .linear, _, traj => fillInLinearInterpolation traj
  | some .cubic, _, traj => fillInCubicInterpolation traj
  | some .equal, csv, traj => setTrajectory traj csv
  | none, _, traj => traj

/-- Error codes set by `ChompPlanner::solve`. -/
inductive MoveItErrorCode where
  | FAILURE
  | INVALID_ROBOT_STATE
  | INVALID_GOAL_CONSTRAINTS
  | PLANNING_FAILED
  | INVALID_MOTION_PLAN
  | GOAL_CONSTRAINTS_VIOLATED
  | SUCCESS
deriving DecidableEq

/-- Oracle inputs of one `solve` call: outcomes of the external
collaborator checks, in the order the source consults them. -/
structure PlanningRequest where
  planning_scene_valid : Bool
  start_state_satisfies_bounds : Bool
  goal_constraints_count : ℕ
  joint_constraints_empty : Bool
  position_constraints_empty : Bool
  orientation_constraints_empty : Bool
  goal_state_satisfies_bounds : Bool
  optimizer_init_ok : ℕ → Bool
  optimize_result : ℕ → Bool
  is_collision_free : Bool
  goal_constraints_satisfied : Bool

/-- Observable outcome of one `solve` call.  `trajectory_filled` records
whether `res.trajectory_` was populated (lines 295–296, which run BEFORE
the collision and goal-tolerance gates); `optimize_calls` counts
invocations of `optimizer->optimize()`; `params_after` is the
caller-supplied `const` parameter object after the call;
`params_nonconst_final` is the final value of the four escalatable fields
of the local copy `params_nonconst` (`none` when the copy's lifetime ended
before the loop was reached). -/
structure SolveResult where
  returned : Bool
  error_code : MoveItErrorCode
  trajectory_filled : Bool
  optimize_calls : ℕ
  params_after : ChompParameters
  params_nonconst_final : Option EscalatableParams
  fill_method : Option FillMethod

/-- Control-flow model of `ChompPlanner::solve` (`chomp_planner.cpp` lines
46–328).  The caller's `params` is a `const` reference in the source; the
loop escalates only the local copy `params_nonconst` (line 200), and line
253 restores that copy to the `org_*` values on every path that leaves the
loop normally (the restore is NOT executed on the optimizer-init failure
return at line 220, nor on the early validation returns). -/
def solve (req : PlanningRequest) (params : ChompParameters) : SolveResult :=
  if req.planning_scene_valid = false then
    { returned := false, error_code := .FAILURE, trajectory_filled := false,
      optimize_calls := 0, params_after := params, params_nonconst_final := none,
      fill_method := none }
  else if req.start_state_satisfies_bounds = false then
    { returned := false, error_code := .INVALID_ROBOT_STATE, trajectory_filled := false,
      optimize_calls := 0, params_after := params, params_nonconst_final := none,
      fill_method := none }
  else if req.goal_constraints_count ≠ 1 then
    { returned := false, error_code := .INVALID_GOAL_CONSTRAINTS, trajectory_filled := false,
      optimize_calls := 0, params_after := params, params_nonconst_final := none,
      fill_method := none }
  else if req.joint_constraints_empty = true ∨ req.position_constraints_empty = false ∨
      req.orientation_constraints_empty = false then
    { returned := false, error_code := .INVALID_GOAL_CONSTRAINTS, trajectory_filled := false,
      optimize_calls := 0, params_after := params, params_nonconst_final := none,
      fill_method := none }
  else if req.goal_state_satisfies_bounds = false then
    { returned := false, error_code := .INVALID_ROBOT_STATE, trajectory_filled := false,
      optimize_calls := 0, params_after := params, params_nonconst_final := none,
      fill_method := none }
  else
    let fm := selectFillMethod params.trajectory_initialization_method
    match replanLoop params.enable_failure_recovery params.max_recovery_attempts
        req.optimizer_init_ok req.optimize_result (escalatableOf params) with
    | .initFailed k q =>
        { returned := false, error_code := .PLANNING_FAILED, trajectory_filled := false,
          optimize_calls := k, params_after := params, params_nonconst_final := some q,
          fill_method := fm }
    | .finished replans _pf _r =>
        if req.is_collision_free = false then
          { returned := false, error_code := .INVALID_MOTION_PLAN, trajectory_filled := true,
            optimize_calls := replans + 1, params_after := params,
            params_nonconst_final := some (escalatableOf params), fill_method := fm }
        else if req.goal_constraints_satisfied = false then
          { returned := false, error_code := .GOAL_CONSTRAINTS_VIOLATED,
            trajectory_filled := true, optimize_calls := replans + 1, params_after := params,
            params_nonconst_final := some (escalatableOf params), fill_method := fm }
        else
          { returned := true, error_code := .SUCCESS, trajectory_filled := true,
            optimize_calls := replans + 1, params_after := params,
            params_nonconst_final := some (escalatableOf params), fill_method := fm }

/-- Modelled from the spec: `shortestAngularDistance` is declared in
`chomp_utils.h`, which is not under `src/`.  Per the spec it is the signed
value in `(-π, π]` such that `(start + delta) ≡ naiveGoal (mod 2π)`, ties
at exactly `π` resolved toward positive; that value is
`(b - a) - 2π·⌈(b - a - π)/(2π)⌉`. -/
noncomputable def shortestAngularDistance (a b : ℝ) : ℝ :=
  (b - a) - 2 * Real.pi * ⌈(b - a - Real.pi) / (2 * Real.pi)⌉

/-- Goal-adjustment step (`chomp_planner.cpp` lines 103–119): the goal row
entry of every continuous joint is rewritten to
`start + shortestAngularDistance(start, end)`; other joints are left
unchanged. -/
noncomputable def adjustGoalRow (continuous : ℕ → Bool) (startRow goalRow : ℕ → ℝ) : ℕ → ℝ :=
  fun j =>
    if continuous j then startRow j + shortestAngularDistance (startRow j) (goalRow j)
    else goalRow j

/-- `initial_vel` of the output stage (`chomp_planner.cpp` line 265):
`std::vector<double> initial_vel(7, 0.0)` — seven zeros, independent of the
actual joint count. -/
def initial_vel : List ℝ := List.replicate 7 0

/-- Velocity matrix of the output stage (`chomp_planner.cpp` lines
266–271): column `j` is `diff_matrix · (position column j)`. -/
noncomputable def velocityMatrix (num_point : ℕ) (diff pos : ℕ → ℕ → ℝ) (i j : ℕ) : ℝ :=
  ∑ k ∈ Finset.range num_point, diff i k * pos k j

/-- Output waypoint. -/
structure OutputWaypoint where
  position : ℕ → ℝ
  velocity : ℕ → ℝ
  duration_from_previous : ℝ

/-- Waypoint `i` emitted by the output stage (`chomp_planner.cpp` lines
274–293): positions copied from the trajectory row; velocity from
`initial_vel` when `i == 0 || i == num_point - 1` (an out-of-range read in
the source when the joint count exceeds 7, hence the `j < 7` hypotheses in
the theorems below), otherwise `velocity_matrix(i, j)`; and
`addSuffixWayPoint(state, 0.1)` for every `i`. -/
noncomputable def outputWaypoint (num_point : ℕ) (diff pos : ℕ → ℕ → ℝ) (i : ℕ) :
    OutputWaypoint :=
  { position := fun j => pos i j
    velocity := fun j =>
      if i = 0 ∨ i = num_point - 1 then initial_vel.getD j 0
      else velocityMatrix num_point diff pos i j
    duration_from_previous := 0.1 }

/-- A small concrete trajectory buffer used as a test vector: 5 points,
1 joint, unit discretization, free range `[1, 3]`, all entries zero. -/
noncomputable def sampleTrajectory : ChompTrajectory :=
  { num_points := 5, num_joints := 1, discretization := 1, start_index := 1,
    end_index := 3, trajectory := fun _ _ => 0 }

/-- A request whose external checks all succeed and whose optimizer
succeeds on the first attempt. -/
def allValidRequest : PlanningRequest :=
  { planning_scene_valid := true, start_state_satisfies_bounds := true,
    goal_constraints_count := 1, joint_constraints_empty := false,
    position_constraints_empty := true, orientation_constraints_empty := true,
    goal_state_satisfies_bounds := true, optimizer_init_ok := fun _ => true,
    optimize_result := fun _ => true, is_collision_free := true,
    goal_constraints_satisfied := true }

/-- Parameter set with the defaults of `chomp_planner.cpp` line 188 and a
chosen initialization method. -/
def paramsWithMethod (method : String) : ChompParameters :=
  { learning_rate := 0.04, ridge_factor := 0, planning_time_limit := 10,
    max_iterations := 200, enable_failure_recovery := true,
    max_recovery_attempts := 5, trajectory_initialization_method := method }

end Chomp

namespace Chomp

/-! ### Helper lemmas about the replanning loop -/

theorem escalateParams_iterate_shift (n : ℕ) (p : EscalatableParams) :
    escalateParams^[n] (escalateParams p) = escalateParams^[n + 1] p :=
  (Function.iterate_succ_apply escalateParams n p).symm

theorem replanLoopFuel_flag_true (enable : Bool) (maxR : ℕ) (initOk optOk : ℕ → Bool)
    (fuel count : ℕ) (p : EscalatableParams) :
    replanLoopFuel enable maxR initOk optOk fuel count p true
      = replanLoopFuel enable maxR initOk optOk fuel count (escalateParams p) false := by
  cases fuel <;> rfl

theorem replanLoopFuel_spec (enable : Bool) (maxR : ℕ) (initOk optOk : ℕ → Bool) :
    ∀ fuel count p, count ≤ maxR →
      (∀ k q, replanLoopFuel enable maxR initOk optOk fuel count p false = .initFailed k q →
        count ≤ k ∧ k ≤ maxR ∧ initOk k = false) ∧
      (∀ R pf r, replanLoopFuel enable maxR initOk optOk fuel count p false = .finished R pf r →
        count ≤ R ∧ R ≤ maxR ∧ pf = escalateParams^[R - count] p ∧
        r = optOk R ∧ (enable = false → R = count)) := by
  intro fuel
  induction fuel with
  | zero =>
      intro count p hc
      constructor
      · intro k q h
        rw [replanLoopFuel] at h
        simp only [Bool.false_eq_true, if_false] at h
        split at h
        · cases h
          exact ⟨le_refl _, hc, by assumption⟩
        · cases h
      · intro R pf r h
        rw [replanLoopFuel] at h
        simp only [Bool.false_eq_true, if_false] at h
        split at h
        · cases h
        · cases h
          exact ⟨le_refl _, hc, by rw [Nat.sub_self, Function.iterate_zero_apply],
            rfl, fun _ => rfl⟩
  | succ fuel ih =>
      intro count p hc
      constructor
      · intro k q h
        rw [replanLoopFuel] at h
        simp only [Bool.false_eq_true, if_false] at h
        split at h
        · cases h
          exact ⟨le_refl _, hc, by assumption⟩
        · split at h
          · rename_i hcond
            have hc' : count + 1 ≤ maxR := hcond.2.2
            rw [replanLoopFuel_flag_true] at h
            have hrec := (ih (count + 1) (escalateParams p) hc').1 k q h
            exact ⟨by omega, hrec.2.1, hrec.2.2⟩
          · cases h
      · intro R pf r h
        rw [replanLoopFuel] at h
        simp only [Bool.false_eq_true, if_false] at h
        split at h
        · cases h
        · split at h
          · rename_i hcond
            have hc' : count + 1 ≤ maxR := hcond.2.2
            rw [replanLoopFuel_flag_true] at h
            have hrec := (ih (count + 1) (escalateParams p) hc').2 R pf r h
            obtain ⟨hR1, hR2, hpf, hr, _⟩ := hrec
            refine ⟨by omega, hR2, ?_, hr, ?_⟩
            · rw [hpf, escalateParams_iterate_shift]
              congr 1
              omega
            · intro henable
              exact absurd hcond.1 (by simp [henable])
          · cases h
            exact ⟨le_refl _, hc, by rw [Nat.sub_self, Function.iterate_zero_apply],
              rfl, fun _ => rfl⟩

/-! ### C1, C8, C9, C10: recovery loop and solve control flow -/

/-- C1: the recovery/retry loop inside `solve` terminates and runs at most
`maxRecoveryAttempts + 1` optimization attempts — exactly one attempt when
`enableFailureRecovery` is false — and before each retry it escalates the
working parameters by adding 0.02 to `learningRate`, 0.002 to
`ridgeFactor`, 5 to `planningTimeLimit` and 50 to `maxIterations`, so the
parameters in force when the loop exits after `R` retries are
`escalateParams^[R]` of the initial copy. -/
theorem solve_recovery_attempt_bound (enable : Bool) (maxR : ℕ)
    (initOk optOk : ℕ → Bool) (p0 : EscalatableParams)
    (req : PlanningRequest) (params : ChompParameters) :
    (∀ R pf r, replanLoop enable maxR initOk optOk p0 = .finished R pf r →
      R + 1 ≤ maxR + 1 ∧ (enable = false → R + 1 = 1) ∧ pf = escalateParams^[R] p0) ∧
    (∀ k q, replanLoop enable maxR initOk optOk p0 = .initFailed k q → k ≤ maxR) ∧
    (∀ p : EscalatableParams, escalateParams p =
      { learning_rate := p.learning_rate + 0.02, ridge_factor := p.ridge_factor + 0.002,
        planning_time_limit := p.planning_time_limit + 5,
        max_iterations := p.max_iterations + 50 }) ∧
    (solve req params).optimize_calls ≤ params.max_recovery_attempts + 1 := by
  have hspec := replanLoopFuel_spec enable maxR initOk optOk maxR 0 p0 (Nat.zero_le _)
  refine ⟨?_, ?_, fun p => rfl, ?_⟩
  · intro R pf r h
    have hfin := hspec.2 R pf r h
    refine ⟨by omega, fun he => by have := hfin.2.2.2.2 he; omega, ?_⟩
    have := hfin.2.2.1
    simpa using this
  · intro k q h
    exact (hspec.1 k q h).2.1
  · have hs := replanLoopFuel_spec params.enable_failure_recovery
      params.max_recovery_attempts req.optimizer_init_ok req.optimize_result
      params.max_recovery_attempts 0 (escalatableOf params) (Nat.zero_le _)
    unfold solve
    split
    · exact Nat.zero_le _
    · split
      · exact Nat.zero_le _
      · split
        · exact Nat.zero_le _
        · split
          · exact Nat.zero_le _
          · split
            · exact Nat.zero_le _
            · split
              · rename_i k q heq
                unfold replanLoop at heq
                exact le_trans ((hs.1 k q heq).2.1) (Nat.le_succ _)
              · rename_i R pf r heq
                unfold replanLoop at heq
                have hR := (hs.2 R pf r heq).2.1
                split
                · exact Nat.succ_le_succ hR
                · split
                  · exact Nat.succ_le_succ hR
                  · exact Nat.succ_le_succ hR

/-- C1 witness: recovery enabled with `maxRecoveryAttempts = 2` and an
optimizer that succeeds immediately: the loop finishes after attempt 0
with unescalated parameters, within the bound `2 + 1`. -/
theorem solve_recovery_attempt_bound_witness :
    0 + 1 ≤ 2 + 1 ∧ (true = false → 0 + 1 = 1) ∧
      (⟨0, 0, 0, 0⟩ : EscalatableParams) = escalateParams^[0] ⟨0, 0, 0, 0⟩ :=
  (solve_recovery_attempt_bound true 2 (fun _ => true) (fun _ => true) ⟨0, 0, 0, 0⟩
    allValidRequest (paramsWithMethod ("quintic-spline"))).1 0 ⟨0, 0, 0, 0⟩ true rfl

/-- C8 counterexample: with every validation passing, the optimizer
succeeding on the first attempt and the collision gate failing, `solve`
returns failure (`INVALID_MOTION_PLAN`) AFTER `res.trajectory_` has been
populated with the full optimized trajectory (lines 295–296 run before the
gate at line 307), so this failure return does carry a trajectory,
contradicting the claim that no trajectory is returned on any failure. -/
theorem solve_collision_failure_returns_trajectory :
    (solve { allValidRequest with is_collision_free := false }
        (paramsWithMethod ("quintic-spline"))).returned = false ∧
    (solve { allValidRequest with is_collision_free := false }
        (paramsWithMethod ("quintic-spline"))).error_code = .INVALID_MOTION_PLAN ∧
    (solve { allValidRequest with is_collision_free := false }
        (paramsWithMethod ("quintic-spline"))).trajectory_filled = true :=
  ⟨rfl, rfl, rfl⟩

/-- C8 (amended): every failure of `solve` other than an optimization
failure retried inside the recovery loop is immediately terminal; the
validation failures and the optimizer-initialization failure return with
no trajectory in the response (and the pre-loop validation failures run
zero optimization attempts), but the collision-detection and
goal-tolerance failures return only after the optimized trajectory has
been written into the response, so those two failure returns carry the
full trajectory. -/
theorem solve_failure_spec (req : PlanningRequest) (params : ChompParameters) :
    ((solve req params).returned = false →
      (solve req params).error_code ≠ .INVALID_MOTION_PLAN →
      (solve req params).error_code ≠ .GOAL_CONSTRAINTS_VIOLATED →
      (solve req params).trajectory_filled = false) ∧
    ((solve req params).error_code = .INVALID_MOTION_PLAN ∨
        (solve req params).error_code = .GOAL_CONSTRAINTS_VIOLATED →
      (solve req params).returned = false ∧ (solve req params).trajectory_filled = true) ∧
    (req.planning_scene_valid = false ∨ req.start_state_satisfies_bounds = false ∨
        req.goal_constraints_count ≠ 1 ∨ req.joint_constraints_empty = true ∨
        req.position_constraints_empty = false ∨ req.orientation_constraints_empty = false ∨
        req.goal_state_satisfies_bounds = false →
      (solve req params).optimize_calls = 0 ∧
        (solve req params).trajectory_filled = false) := by
  unfold solve
  repeat' split
  all_goals simp_all

/-- C8 witness: a request with no planning scene fails terminally with
zero optimization attempts and no trajectory in the response. -/
theorem solve_failure_spec_witness :
    (solve { allValidRequest with planning_scene_valid := false }
        (paramsWithMethod ("quintic-spline"))).optimize_calls = 0 ∧
    (solve { allValidRequest with planning_scene_valid := false }
        (paramsWithMethod ("quintic-spline"))).trajectory_filled = false :=
  (solve_failure_spec { allValidRequest with planning_scene_valid := false }
    (paramsWithMethod ("quintic-spline"))).2.2 (Or.inl rfl)

/-- C9: after `solve` returns — success or any failure, however many
recovery escalations occurred — the caller-supplied parameter set's fields
equal their pre-call values: the source receives it as a `const` reference
and escalates only the local copy `params_nonconst` (line 200); moreover
on every path that leaves the replanning loop normally, line 253 has
restored that local copy to the originally captured `org_*` values. -/
theorem solve_params_restored (req : PlanningRequest) (params : ChompParameters) :
    (solve req params).params_after = params ∧
    (solve req params).params_after.learning_rate = params.learning_rate ∧
    (solve req params).params_after.ridge_factor = params.ridge_factor ∧
    (solve req params).params_after.planning_time_limit = params.planning_time_limit ∧
    (solve req params).params_after.max_iterations = params.max_iterations ∧
    ((solve req params).trajectory_filled = true →
      (solve req params).params_nonconst_final = some (escalatableOf params)) := by
  have hp : (solve req params).params_after = params := by
    unfold solve
    repeat' split
    all_goals rfl
  refine ⟨hp, by rw [hp], by rw [hp], by rw [hp], by rw [hp], ?_⟩
  unfold solve
  repeat' split
  all_goals simp

/-- C9 witness: concrete successful run; the caller-supplied parameters
are returned unchanged. -/
theorem solve_params_restored_witness :
    (solve allValidRequest (paramsWithMethod ("quintic-spline"))).params_after
      = paramsWithMethod ("quintic-spline") :=
  (solve_params_restored allValidRequest (paramsWithMethod ("quintic-spline"))).1

/-- C10: when the configured trajectory-initialization method matches none
of the recognized choices, `solve` does not fail: the dispatch selects no
filler (only an error is logged), the buffer is left untouched (its free
interior unfilled), and execution proceeds to the optimization loop, which
can still return success. -/
theorem solve_unknown_init_method (method : String) (traj : ChompTrajectory)
    (csv : ℕ → ℕ → ℝ)
    (h1 : method ≠ "quintic-spline") (h2 : method ≠ "linear")
    (h3 : method ≠ "cubic") (h4 : method ≠ "equal") :
    selectFillMethod method = none ∧
    applyFillMethod (selectFillMethod method) csv traj = traj ∧
    (solve allValidRequest (paramsWithMethod method)).returned = true ∧
    (solve allValidRequest (paramsWithMethod method)).error_code = .SUCCESS ∧
    (solve allValidRequest (paramsWithMethod method)).fill_method
      = selectFillMethod method := by
  have hsel : selectFillMethod method = none := by
    unfold selectFillMethod
    rw [if_neg h1, if_neg h2, if_neg h3, if_neg h4]
  refine ⟨hsel, ?_, rfl, rfl, rfl⟩
  rw [hsel]
  rfl

/-- C10 witness: the unrecognized method string `foo` leaves the buffer
unchanged and `solve` still succeeds. -/
theorem solve_unknown_init_method_witness :
    selectFillMethod ("foo") = none ∧
    applyFillMethod (selectFillMethod ("foo")) (fun _ _ => 0) sampleTrajectory
      = sampleTrajectory ∧
    (solve allValidRequest (paramsWithMethod ("foo"))).returned = true ∧
    (solve allValidRequest (paramsWithMethod ("foo"))).error_code = .SUCCESS ∧
    (solve allValidRequest (paramsWithMethod ("foo"))).fill_method
      = selectFillMethod ("foo") :=
  solve_unknown_init_method ("foo") sampleTrajectory (fun _ _ => 0)
    (by decide) (by decide) (by decide) (by decide)

/-! ### Helper lemmas for the resampler (C2) -/

theorem pairwise_le_of_all_eq (c : ℕ) : ∀ l : List ℕ, (∀ x ∈ l, x = c) → l.Pairwise (· ≤ ·) := by
  intro l
  induction l with
  | nil => intro _; exact List.Pairwise.nil
  | cons a t ih =>
      intro h
      refine List.Pairwise.cons ?_ (ih fun x hx => h x (List.mem_cons_of_mem a hx))
      intro b hb
      rw [h a (List.mem_cons_self a t), h b (List.mem_cons_of_mem a hb)]

theorem sorted_flatMap_blocks (g : ℕ → List ℕ) (hg : ∀ i, ∀ x ∈ g i, x = i) :
    ∀ n, ((List.range n).flatMap g).Sorted (· ≤ ·) := by
  intro n
  induction n with
  | zero => simp [List.Sorted]
  | succ n ih =>
      rw [List.range_succ, List.flatMap_append]
      rw [List.Sorted, List.pairwise_append]
      refine ⟨ih, ?_, ?_⟩
      · simp only [List.flatMap_cons, List.flatMap_nil, List.append_nil]
        exact pairwise_le_of_all_eq n (g n) (hg n)
      · intro a ha b hb
        simp only [List.flatMap_cons, List.flatMap_nil, List.append_nil] at hb
        rw [List.mem_flatMap] at ha
        obtain ⟨i, hi, hai⟩ := ha
        rw [hg i a hai, hg n b hb]
        exact Nat.le_of_lt (List.mem_range.mp hi)

theorem count_flatMap_blocks (r rem : ℕ) :
    ∀ n i, i < n →
      ((List.range n).flatMap fun a => List.replicate (r + if a < rem then 1 else 0) a).count i
        = r + if i < rem then 1 else 0 := by
  intro n
  induction n with
  | zero => intro i h; omega
  | succ n ih =>
      intro i h
      rw [List.range_succ, List.flatMap_append, List.count_append]
      simp only [List.flatMap_cons, List.flatMap_nil, List.append_nil]
      rcases Nat.lt_or_ge i n with h' | h'
      · rw [ih i h', List.count_replicate]
        have hne : (n == i) = false := by
          simp only [beq_eq_false_iff_ne]
          omega
        simp [hne]
      · have hin : i = n := by omega
        have hz : ((List.range n).flatMap
            fun a => List.replicate (r + if a < rem then 1 else 0) a).count i = 0 := by
          rw [List.count_eq_zero]
          intro hmem
          rw [List.mem_flatMap] at hmem
          obtain ⟨jj, hj, hji⟩ := hmem
          have hji2 := List.eq_of_mem_replicate hji
          have hj2 := List.mem_range.mp hj
          omega
        rw [hz, List.count_replicate]
        have heq : (n == i) = true := by simp [hin]
        simp [heq, hin]

theorem length_flatMap_blocks (r rem : ℕ) :
    ∀ n, ((List.range n).flatMap fun a => List.replicate (r + if a < rem then 1 else 0) a).length
      = n * r + min rem n := by
  intro n
  induction n with
  | zero => simp
  | succ n ih =>
      rw [List.range_succ, List.flatMap_append, List.length_append, ih]
      simp only [List.flatMap_cons, List.flatMap_nil, List.append_nil, List.length_replicate]
      rw [Nat.succ_mul]
      rcases Nat.lt_or_ge n rem with h | h
      · rw [if_pos h]
        omega
      · rw [if_neg (by omega)]
        omega

theorem fillSourceIndexList_eq_blocks (ni nc : ℕ) (h : ni ≤ nc) :
    fillSourceIndexList ni nc = (List.range ni).flatMap
      fun a => List.replicate (nc / ni + if a < nc % ni then 1 else 0) a := by
  unfold fillSourceIndexList
  rw [if_pos h]
  congr 1
  funext a
  split
  · exact (List.replicate_succ' (nc / ni) a).symm
  · simp

/-! ### C2: the resampler -/

/-- C2: for every external waypoint sequence of length ≥ 2 and every
target with `targetNumPoints ≥ 2`, `fillInFromTrajectory` succeeds and
writes exactly `targetNumPoints` rows; in the repetition branch
(`externalLength ≤ targetNumPoints`) external index `i` is emitted
`floor(target/external)` times plus one extra copy exactly when
`i < target mod external`, preserving temporal order (the emitted source
indices are sorted); in the decimation branch target row `k` copies
source index `floor(k·external/target) < externalLength`; it fails when
the external sequence has fewer than 2 waypoints; and concretely
`externalLength = 10`, `targetNumPoints = 89` give repeat 8, remainder 9,
indices below 9 emitted 9 times, index 9 emitted 8 times, 89 rows in
total. -/
theorem fillInFromTrajectory_spec (num_input num_chomp : ℕ)
    (hi : 2 ≤ num_input) (hc : 2 ≤ num_chomp) :
    fillInFromTrajectory num_input num_chomp
      = some (fillSourceIndexList num_input num_chomp) ∧
    (fillSourceIndexList num_input num_chomp).length = num_chomp ∧
    (fillSourceIndexList num_input num_chomp).Sorted (· ≤ ·) ∧
    (num_input ≤ num_chomp → ∀ i, i < num_input →
      (fillSourceIndexList num_input num_chomp).count i
        = num_chomp / num_input + if i < num_chomp % num_input then 1 else 0) ∧
    (num_chomp < num_input → ∀ k, k < num_chomp →
      (fillSourceIndexList num_input num_chomp).getD k 0 = k * num_input / num_chomp ∧
        k * num_input / num_chomp < num_input) ∧
    (∀ m, m < 2 → fillInFromTrajectory m num_chomp = none) ∧
    (89 / 10 = 8 ∧ 89 % 10 = 9 ∧
      (∀ i, i < 9 → (fillSourceIndexList 10 89).count i = 9) ∧
      (fillSourceIndexList 10 89).count 9 = 8 ∧
      (fillSourceIndexList 10 89).length = 89) := by
  have hni : 0 < num_input := by omega
  refine ⟨?_, ?_, ?_, ?_, ?_, ?_, by decide⟩
  · unfold fillInFromTrajectory
    rw [if_neg (by omega)]
  · rcases le_or_lt num_input num_chomp with h | h
    · rw [fillSourceIndexList_eq_blocks num_input num_chomp h,
        length_flatMap_blocks]
      have hmod : num_chomp % num_input < num_input := Nat.mod_lt _ hni
      rw [min_eq_left (le_of_lt hmod)]
      exact Nat.div_add_mod num_chomp num_input
    · unfold fillSourceIndexList
      rw [if_neg (by omega)]
      simp
  · rcases le_or_lt num_input num_chomp with h | h
    · rw [fillSourceIndexList_eq_blocks num_input num_chomp h]
      refine sorted_flatMap_blocks _ ?_ num_input
      intro i x hx
      exact List.eq_of_mem_replicate hx
    · unfold fillSourceIndexList
      rw [if_neg (by omega)]
      rw [List.Sorted, List.pairwise_map]
      exact List.Pairwise.imp
        (fun hab => Nat.div_le_div_right (Nat.mul_le_mul_right num_input (Nat.le_of_lt hab)))
        (List.pairwise_lt_range num_chomp)
  · intro h i hilt
    rw [fillSourceIndexList_eq_blocks num_input num_chomp h]
    exact count_flatMap_blocks _ _ num_input i hilt
  · intro h k hk
    unfold fillSourceIndexList
    rw [if_neg (by omega)]
    constructor
    · rw [List.getD_eq_getElem _ _ (by simpa using hk)]
      simp
    · rw [Nat.div_lt_iff_lt_mul (by omega)]
      calc k * num_input < num_chomp * num_input :=
            (Nat.mul_lt_mul_right hni).mpr hk
        _ = num_input * num_chomp := Nat.mul_comm num_chomp num_input
  · intro m hm
    unfold fillInFromTrajectory
    rw [if_pos hm]

/-- C2 witness: the concrete 10-into-89 resampling of the end-to-end
scenario succeeds. -/
theorem fillInFromTrajectory_spec_witness :
    fillInFromTrajectory 10 89 = some (fillSourceIndexList 10 89) :=
  (fillInFromTrajectory_spec 10 89 (by decide) (by decide)).1

/-! ### C3: the padded-copy constructor -/

theorem clampSourceIndex_eq (n : ℕ) (hn : 1 ≤ n) (se : ℤ) (i : ℕ) :
    clampSourceIndex n se i = (min ((n : ℤ) - 1) (max 0 ((i : ℤ) - se))).toNat := by
  unfold clampSourceIndex
  simp only []
  split <;> split <;> omega

/-- C3 counterexample: with stencil width 1 and a 5-point source whose
free range is `[1, 3]`, the source computes `start_extra = end_extra = -1`
(there is no clamping at zero in lines 71–72), so the "padded" buffer has
3 points, whereas the claimed `max(0, ·)` formulas predict
`5 + max(0,-1) + max(0,-1) = 5` points. -/
theorem createPadded_no_clamp_cex :
    (createPadded sampleTrajectory 1).num_points = 3 ∧
    sampleTrajectory.num_points
        + (max 0 (((1 : ℤ) - 1) - (sampleTrajectory.start_index : ℤ))).toNat
        + (max 0 (((1 : ℤ) - 1)
            - (((sampleTrajectory.num_points : ℤ) - 1) - (sampleTrajectory.end_index : ℤ)))).toNat
      = 5 ∧
    (3 : ℕ) ≠ 5 :=
  ⟨by decide, by decide, by decide⟩

/-- C3 (amended): the padded-copy constructor computes
`startExtra = stencilWidth-1 - source.startIndex` and
`endExtra = stencilWidth-1 - ((source.numPoints-1) - source.endIndex)`
WITHOUT clamping at zero (they may be negative), sets
`numPoints = source.numPoints + startExtra + endExtra`,
`startIndex = stencilWidth-1`, `endIndex = numPoints-1-(stencilWidth-1)`,
and fills every padded index `i` by copying verbatim the source row at
index `clamp(i - startExtra, 0, source.numPoints-1)`; consequently the
padded buffer's free-range length equals the source's free-range length,
and the rows added as padding (indices below `startExtra`, resp. at or
beyond `startExtra + source.numPoints`) replicate the source's first,
resp. last, row. -/
theorem createPadded_spec (source : ChompTrajectory) (d : ℕ) (se ee np : ℤ)
    (hd : 1 ≤ d) (hse : source.start_index ≤ source.end_index)
    (hne : source.end_index < source.num_points)
    (hsedef : se = ((d : ℤ) - 1) - (source.start_index : ℤ))
    (heedef : ee = ((d : ℤ) - 1)
      - (((source.num_points : ℤ) - 1) - (source.end_index : ℤ)))
    (hnpdef : np = (source.num_points : ℤ) + se + ee) :
    ((createPadded source d).num_points : ℤ) = np ∧
    (createPadded source d).start_index = d - 1 ∧
    ((createPadded source d).end_index : ℤ) = np - 1 - ((d : ℤ) - 1) ∧
    ((createPadded source d).end_index : ℤ) - ((createPadded source d).start_index : ℤ)
      = (source.end_index : ℤ) - (source.start_index : ℤ) ∧
    (∀ i j, (createPadded source d).trajectory i j
      = source.trajectory
          ((min ((source.num_points : ℤ) - 1) (max 0 ((i : ℤ) - se))).toNat) j) ∧
    (∀ (i j : ℕ), (i : ℤ) < se → (createPadded source d).trajectory i j
      = source.trajectory 0 j) ∧
    (∀ (i j : ℕ), se + (source.num_points : ℤ) ≤ (i : ℤ) →
      (createPadded source d).trajectory i j
        = source.trajectory (source.num_points - 1) j) := by
  have hn1 : 1 ≤ source.num_points := by omega
  have htrajeq : ∀ i j, (createPadded source d).trajectory i j
      = source.trajectory
          ((min ((source.num_points : ℤ) - 1) (max 0 ((i : ℤ) - se))).toNat) j := by
    intro i j
    show source.trajectory
        (clampSourceIndex source.num_points (((d : ℤ) - 1) - (source.start_index : ℤ)) i) j
      = _
    rw [clampSourceIndex_eq source.num_points hn1]
    rw [hsedef]
  refine ⟨?_, rfl, ?_, ?_, htrajeq, ?_, ?_⟩
  · show ((((source.num_points : ℤ) + (((d : ℤ) - 1) - (source.start_index : ℤ))
      + (((d : ℤ) - 1) - (((source.num_points : ℤ) - 1) - (source.end_index : ℤ)))).toNat : ℕ) : ℤ)
      = np
    omega
  · show ((((source.num_points : ℤ) + (((d : ℤ) - 1) - (source.start_index : ℤ))
      + (((d : ℤ) - 1) - (((source.num_points : ℤ) - 1) - (source.end_index : ℤ))))
        - 1 - ((d : ℤ) - 1)).toNat : ℤ) = np - 1 - ((d : ℤ) - 1)
    omega
  · show ((((source.num_points : ℤ) + (((d : ℤ) - 1) - (source.start_index : ℤ))
      + (((d : ℤ) - 1) - (((source.num_points : ℤ) - 1) - (source.end_index : ℤ))))
        - 1 - ((d : ℤ) - 1)).toNat : ℤ) - ((d - 1 : ℕ) : ℤ)
      = (source.end_index : ℤ) - (source.start_index : ℤ)
    omega
  · intro i j hi
    rw [htrajeq i j]
    congr 1
    omega
  · intro i j hi
    rw [htrajeq i j]
    congr 1
    omega

/-- C3 witness: padding the sample source with stencil width 3 gives 7
points and preserves the free-range length 2. -/
theorem createPadded_spec_witness :
    ((createPadded sampleTrajectory 3).end_index : ℤ)
        - ((createPadded sampleTrajectory 3).start_index : ℤ)
      = (sampleTrajectory.end_index : ℤ) - (sampleTrajectory.start_index : ℤ) :=
  (createPadded_spec sampleTrajectory 3 1 1 7 (by decide) (by decide) (by decide)
    (by decide) (by decide) (by decide)).2.2.2.1

/-! ### C4: point count from duration -/

/-- C4 counterexample: duration 1 and discretization 2 are both positive,
yet the constructor yields `numPoints = floor(1/2) + 1 = 1 < 2`, refuting
`numPoints ≥ 2` for every positive duration and discretization. -/
theorem numPointsFromDuration_cex :
    (0 : ℚ) < 1 ∧ (0 : ℚ) < 2 ∧ numPointsFromDuration 1 2 = 1 ∧
      ¬ 2 ≤ numPointsFromDuration 1 2 := by
  have h0 : ⌊(1 : ℚ) / 2⌋ = 0 := by norm_num
  refine ⟨one_pos, two_pos, ?_, ?_⟩
  · unfold numPointsFromDuration
    rw [h0]
    decide
  · unfold numPointsFromDuration
    rw [h0]
    decide

/-- C4 (amended): for every duration > 0 and discretization > 0 the
duration-based constructor yields
`numPoints = floor(duration/discretization) + 1 ≥ 1`; `numPoints ≥ 2`
holds whenever `discretization ≤ duration`, and `numPoints = 1` when
`duration < discretization`; concretely duration 3.0 and discretization
0.03409 give `numPoints = 89`. -/
theorem numPointsFromDuration_spec (duration discretization : ℚ)
    (hd : 0 < duration) (hdt : 0 < discretization) :
    numPointsFromDuration duration discretization
      = (⌊duration / discretization⌋).toNat + 1 ∧
    1 ≤ numPointsFromDuration duration discretization ∧
    (discretization ≤ duration → 2 ≤ numPointsFromDuration duration discretization) ∧
    (duration < discretization → numPointsFromDuration duration discretization = 1) ∧
    numPointsFromDuration 3 (3409 / 100000) = 89 := by
  refine ⟨rfl, Nat.le_add_left 1 _, ?_, ?_, ?_⟩
  · intro hle
    have h1 : (1 : ℚ) ≤ duration / discretization := (one_le_div hdt).mpr hle
    have h2 : (1 : ℤ) ≤ ⌊duration / discretization⌋ := by
      rw [Int.le_floor]
      exact_mod_cast h1
    unfold numPointsFromDuration
    omega
  · intro hlt
    have h1 : duration / discretization < 1 := (div_lt_one hdt).mpr hlt
    have h0 : (0 : ℚ) ≤ duration / discretization := le_of_lt (div_pos hd hdt)
    have h2 : ⌊duration / discretization⌋ = 0 := by
      rw [Int.floor_eq_zero_iff, Set.mem_Ico]
      exact ⟨h0, h1⟩
    unfold numPointsFromDuration
    rw [h2]
    decide
  · unfold numPointsFromDuration
    rw [show ⌊(3 : ℚ) / (3409 / 100000)⌋ = 88 from by norm_num]
    decide

/-- C4 witness: the concrete end-to-end sizing 3.0 / 0.03409 → 89. -/
theorem numPointsFromDuration_spec_witness :
    numPointsFromDuration 3 (3409 / 100000) = 89 :=
  (numPointsFromDuration_spec 3 (3409 / 100000) (by norm_num) (by norm_num)).2.2.2.2

/-! ### C5: the output stage (velocities and durations) -/

/-- C5 counterexample: the very first output waypoint is emitted with
duration-from-previous 0.1 — line 292 passes 0.1 unconditionally for every
waypoint — not with zero duration as claimed. -/
theorem outputWaypoint_first_duration_cex :
    (outputWaypoint 5 (fun _ _ => 1) (fun _ _ => 1) 0).duration_from_previous = 0.1 ∧
    (0.1 : ℝ) ≠ 0 :=
  ⟨rfl, by norm_num⟩

/-- C5 (amended): in the output emitted by `solve`, for every joint index
below 7 the first and last waypoints report zero velocity regardless of
the finite-difference matrix, every interior waypoint `i` reports the
finite-difference velocity `(D·p)(i)` of its joint's position column, and
EVERY waypoint — including the very first — is emitted with the fixed
constant duration-from-previous 0.1, distinct from the buffer's
discretization.  (The zero-velocity rows read `initial_vel`, a vector of
exactly 7 zeros, so for joint counts above 7 the source reads out of
bounds; hence the `j < 7` hypotheses.) -/
theorem outputWaypoint_spec (num_point : ℕ) (diff pos : ℕ → ℕ → ℝ) (i j : ℕ) :
    (j < 7 → (outputWaypoint num_point diff pos 0).velocity j = 0) ∧
    (j < 7 → (outputWaypoint num_point diff pos (num_point - 1)).velocity j = 0) ∧
    (i ≠ 0 → i ≠ num_point - 1 → (outputWaypoint num_point diff pos i).velocity j
      = ∑ k ∈ Finset.range num_point, diff i k * pos k j) ∧
    (outputWaypoint num_point diff pos i).duration_from_previous = 0.1 ∧
    (outputWaypoint num_point diff pos i).position j = pos i j := by
  have hz : ∀ jj : ℕ, jj < 7 → initial_vel.getD jj 0 = 0 := by
    intro jj hjj
    interval_cases jj <;> rfl
  refine ⟨?_, ?_, ?_, rfl, rfl⟩
  · intro hj
    show (if (0 : ℕ) = 0 ∨ (0 : ℕ) = num_point - 1 then initial_vel.getD j 0
      else velocityMatrix num_point diff pos 0 j) = 0
    rw [if_pos (Or.inl rfl)]
    exact hz j hj
  · intro hj
    show (if num_point - 1 = 0 ∨ num_point - 1 = num_point - 1 then initial_vel.getD j 0
      else velocityMatrix num_point diff pos (num_point - 1) j) = 0
    rw [if_pos (Or.inr rfl)]
    exact hz j hj
  · intro h0 h1
    show (if i = 0 ∨ i = num_point - 1 then initial_vel.getD j 0
      else velocityMatrix num_point diff pos i j) = _
    rw [if_neg (by simp [h0, h1])]
    rfl

/-- C5 witness: an interior waypoint of a 5-point trajectory reports the
finite-difference velocity. -/
theorem outputWaypoint_spec_witness :
    (outputWaypoint 5 (fun _ _ => 1) (fun _ _ => 1) 2).velocity 0
      = ∑ k ∈ Finset.range 5, (fun _ _ => (1 : ℝ)) 2 k * (fun _ _ => (1 : ℝ)) k 0 :=
  (outputWaypoint_spec 5 (fun _ _ => 1) (fun _ _ => 1) 2 0).2.2.1 (by decide) (by decide)

/-! ### C6: goal adjustment for continuous joints -/

/-- C6: for every continuously-rotating joint the goal-adjustment step
rewrites the goal entry to `start + shortestAngularDistance(start, goal)`,
where the delta is the signed value in `(-π, π]` congruent to
`goal - start` modulo 2π; non-continuous joints are untouched; concretely
start 3.0 rad and naive goal −3.0 rad give delta `2π − 6 ≈ 0.2832` and
adjusted goal `2π − 3 ≈ 3.2832` rad. -/
theorem adjustGoalRow_spec (continuous : ℕ → Bool) (startRow goalRow : ℕ → ℝ) (j : ℕ) :
    (continuous j = false → adjustGoalRow continuous startRow goalRow j = goalRow j) ∧
    (continuous j = true → adjustGoalRow continuous startRow goalRow j
      = startRow j + shortestAngularDistance (startRow j) (goalRow j)) ∧
    (-Real.pi < shortestAngularDistance (startRow j) (goalRow j) ∧
      shortestAngularDistance (startRow j) (goalRow j) ≤ Real.pi) ∧
    (∃ k : ℤ, startRow j + shortestAngularDistance (startRow j) (goalRow j)
      = goalRow j - 2 * Real.pi * k) ∧
    shortestAngularDistance 3 (-3) = 2 * Real.pi - 6 ∧
    |3 + shortestAngularDistance 3 (-3) - 3.2832| < 0.001 := by
  have hrange : ∀ x y : ℝ, -Real.pi < shortestAngularDistance x y ∧
      shortestAngularDistance x y ≤ Real.pi := by
    intro x y
    have hpi : (0 : ℝ) < 2 * Real.pi := by positivity
    have hle := Int.le_ceil ((y - x - Real.pi) / (2 * Real.pi))
    have hlt := Int.ceil_lt_add_one ((y - x - Real.pi) / (2 * Real.pi))
    rw [div_le_iff₀ hpi] at hle
    have hlt2 : ((⌈(y - x - Real.pi) / (2 * Real.pi)⌉ : ℝ) - 1)
        < (y - x - Real.pi) / (2 * Real.pi) := by linarith
    rw [lt_div_iff₀ hpi] at hlt2
    unfold shortestAngularDistance
    constructor <;> nlinarith
  have hceil : ⌈((-3 : ℝ) - 3 - Real.pi) / (2 * Real.pi)⌉ = -1 := by
    rw [Int.ceil_eq_iff]
    push_cast
    constructor
    · rw [lt_div_iff₀ (by positivity)]
      nlinarith [Real.pi_gt_three]
    · rw [div_le_iff₀ (by positivity)]
      nlinarith [Real.pi_le_four]
  have hval : shortestAngularDistance 3 (-3) = 2 * Real.pi - 6 := by
    unfold shortestAngularDistance
    rw [hceil]
    push_cast
    ring
  refine ⟨?_, ?_, hrange _ _, ?_, hval, ?_⟩
  · intro hcont
    unfold adjustGoalRow
    rw [hcont]
    simp
  · intro hcont
    unfold adjustGoalRow
    rw [hcont]
    simp
  · refine ⟨⌈(goalRow j - startRow j - Real.pi) / (2 * Real.pi)⌉, ?_⟩
    unfold shortestAngularDistance
    ring
  · rw [hval, abs_lt]
    constructor <;> nlinarith [Real.pi_gt_d6, Real.pi_lt_d6]

/-- C6 witness: a joint that is not continuous is left untouched. -/
theorem adjustGoalRow_spec_witness :
    adjustGoalRow (fun _ => false) (fun _ => 0) (fun _ => (1 : ℝ)) 0 = 1 :=
  (adjustGoalRow_spec (fun _ => false) (fun _ => 0) (fun _ => (1 : ℝ)) 0).1 rfl

/-! ### C7: the minimum-jerk filler -/

theorem hasDerivAt_quintic (a0 a1 a2 a3 a4 a5 t : ℝ) :
    HasDerivAt (fun x : ℝ => a0 + a1 * x + a2 * x^2 + a3 * x^3 + a4 * x^4 + a5 * x^5)
      (a1 + 2*a2*t + 3*a3*t^2 + 4*a4*t^3 + 5*a5*t^4) t := by
  have h0 : HasDerivAt (fun _ : ℝ => a0) 0 t := hasDerivAt_const t a0
  have h1 : HasDerivAt (fun x : ℝ => a1 * x) a1 t := by
    simpa using (hasDerivAt_id t).const_mul a1
  have h2 : HasDerivAt (fun x : ℝ => a2 * x^2) (a2 * (2 * t)) t := by
    simpa using (hasDerivAt_pow 2 t).const_mul a2
  have h3 : HasDerivAt (fun x : ℝ => a3 * x^3) (a3 * (3 * t^2)) t := by
    simpa using (hasDerivAt_pow 3 t).const_mul a3
  have h4 : HasDerivAt (fun x : ℝ => a4 * x^4) (a4 * (4 * t^3)) t := by
    simpa using (hasDerivAt_pow 4 t).const_mul a4
  have h5 : HasDerivAt (fun x : ℝ => a5 * x^5) (a5 * (5 * t^4)) t := by
    simpa using (hasDerivAt_pow 5 t).const_mul a5
  have htot := ((((h0.add h1).add h2).add h3).add h4).add h5
  convert htot using 1
  ring

theorem hasDerivAt_quartic (b0 b1 b2 b3 b4 t : ℝ) :
    HasDerivAt (fun x : ℝ => b0 + b1 * x + b2 * x^2 + b3 * x^3 + b4 * x^4)
      (b1 + 2*b2*t + 3*b3*t^2 + 4*b4*t^3) t := by
  have h0 : HasDerivAt (fun _ : ℝ => b0) 0 t := hasDerivAt_const t b0
  have h1 : HasDerivAt (fun x : ℝ => b1 * x) b1 t := by
    simpa using (hasDerivAt_id t).const_mul b1
  have h2 : HasDerivAt (fun x : ℝ => b2 * x^2) (b2 * (2 * t)) t := by
    simpa using (hasDerivAt_pow 2 t).const_mul b2
  have h3 : HasDerivAt (fun x : ℝ => b3 * x^3) (b3 * (3 * t^2)) t := by
    simpa using (hasDerivAt_pow 3 t).const_mul b3
  have h4 : HasDerivAt (fun x : ℝ => b4 * x^4) (b4 * (4 * t^3)) t := by
    simpa using (hasDerivAt_pow 4 t).const_mul b4
  have htot := (((h0.add h1).add h2).add h3).add h4
  convert htot using 1
  ring

theorem minJerkPosition_hasDerivAt (x0 x1 td1 t : ℝ) :
    HasDerivAt (fun u => minJerkPosition x0 x1 td1 u) (minJerkVelocity x0 x1 td1 t) t := by
  unfold minJerkPosition minJerkVelocity
  exact hasDerivAt_quintic _ 0 0 _ _ _ t

theorem minJerkVelocity_hasDerivAt (x0 x1 td1 t : ℝ) :
    HasDerivAt (fun u => minJerkVelocity x0 x1 td1 u) (minJerkAcceleration x0 x1 td1 t) t := by
  unfold minJerkVelocity minJerkAcceleration
  exact hasDerivAt_quartic 0 (2*0) _ _ _ t

theorem minJerk_boundary_values (x0 x1 td1 : ℝ) (h : td1 ≠ 0) :
    minJerkPosition x0 x1 td1 0 = x0 ∧ minJerkPosition x0 x1 td1 td1 = x1 ∧
    minJerkVelocity x0 x1 td1 0 = 0 ∧ minJerkVelocity x0 x1 td1 td1 = 0 ∧
    minJerkAcceleration x0 x1 td1 0 = 0 ∧ minJerkAcceleration x0 x1 td1 td1 = 0 := by
  refine ⟨?_, ?_, ?_, ?_, ?_, ?_⟩
  · unfold minJerkPosition
    norm_num
  · unfold minJerkPosition
    field_simp
    ring
  · unfold minJerkVelocity
    norm_num
  · unfold minJerkVelocity
    field_simp
    ring
  · unfold minJerkAcceleration
    norm_num
  · unfold minJerkAcceleration
    field_simp
    ring

/-- C7: for a buffer with its boundary rows set, the minimum-jerk filler
writes, at every interior index `i`, the quintic evaluated at
`t_i = (i - startBoundary)·discretization`; the boundary rows are left
equal to the input boundary values; the quintic's position at the two
boundary instants `t = 0` and `t = td1` equals those boundary values
exactly; and its first and second derivatives (established as genuine
derivatives via `HasDerivAt`) vanish at both boundary instants. -/
theorem fillInMinJerk_spec (traj : ChompTrajectory) (j s e : ℕ) (x0 x1 td1 : ℝ)
    (hs : 1 ≤ traj.start_index) (hse : traj.start_index ≤ traj.end_index)
    (hd : 0 < traj.discretization)
    (hsdef : s = traj.start_index - 1) (hedef : e = traj.end_index + 1)
    (hx0 : x0 = traj.trajectory s j) (hx1 : x1 = traj.trajectory e j)
    (htd : td1 = ((e : ℝ) - (s : ℝ)) * traj.discretization) :
    (∀ i, s < i → i < e → (fillInMinJerk traj).trajectory i j
      = minJerkPosition x0 x1 td1 (((i : ℝ) - (s : ℝ)) * traj.discretization)) ∧
    (fillInMinJerk traj).trajectory s j = x0 ∧
    (fillInMinJerk traj).trajectory e j = x1 ∧
    minJerkPosition x0 x1 td1 0 = x0 ∧
    minJerkPosition x0 x1 td1 td1 = x1 ∧
    (∀ t, HasDerivAt (fun u => minJerkPosition x0 x1 td1 u)
      (minJerkVelocity x0 x1 td1 t) t) ∧
    (∀ t, HasDerivAt (fun u => minJerkVelocity x0 x1 td1 u)
      (minJerkAcceleration x0 x1 td1 t) t) ∧
    minJerkVelocity x0 x1 td1 0 = 0 ∧
    minJerkVelocity x0 x1 td1 td1 = 0 ∧
    minJerkAcceleration x0 x1 td1 0 = 0 ∧
    minJerkAcceleration x0 x1 td1 td1 = 0 := by
  have hse2 : s + 2 ≤ e := by omega
  have hcast : (s : ℝ) + 2 ≤ (e : ℝ) := by exact_mod_cast hse2
  have hT : td1 ≠ 0 := by
    rw [htd]
    have hpos : (0 : ℝ) < ((e : ℝ) - (s : ℝ)) * traj.discretization :=
      mul_pos (by linarith) hd
    linarith
  obtain ⟨hb1, hb2, hb3, hb4, hb5, hb6⟩ := minJerk_boundary_values x0 x1 td1 hT
  refine ⟨?_, ?_, ?_, hb1, hb2, fun t => minJerkPosition_hasDerivAt x0 x1 td1 t,
    fun t => minJerkVelocity_hasDerivAt x0 x1 td1 t, hb3, hb4, hb5, hb6⟩
  · intro i hi1 hi2
    subst hsdef hedef
    rw [hx0, hx1, htd]
    simp only [fillInMinJerk]
    rw [if_pos ⟨hi1, hi2⟩]
  · subst hsdef hedef
    rw [hx0]
    simp only [fillInMinJerk]
    rw [if_neg (by simp)]
  · subst hsdef hedef
    rw [hx1]
    simp only [fillInMinJerk]
    rw [if_neg (by simp)]

/-- C7 witness: the sample trajectory (free range `[1, 3]`, unit
discretization, zero boundary rows) has vanishing quintic boundary
velocity at both ends of the span `td1 = 4`. -/
theorem fillInMinJerk_spec_witness :
    minJerkVelocity 0 0 4 0 = 0 ∧ minJerkVelocity 0 0 4 4 = 0 :=
  ⟨(fillInMinJerk_spec sampleTrajectory 0 0 4 0 0 4 (by decide) (by decide)
      (by norm_num [sampleTrajectory]) rfl rfl rfl rfl
      (by norm_num [sampleTrajectory])).2.2.2.2.2.2.2.1,
    (fillInMinJerk_spec sampleTrajectory 0 0 4 0 0 4 (by decide) (by decide)
      (by norm_num [sampleTrajectory]) rfl rfl rfl rfl
      (by norm_num [sampleTrajectory])).2.2.2.2.2.2.2.2.1⟩

end Chomp
